import Mathlib

/-!
Shallow embedding of `src/components/GetUserLocation.tsx` (the `GetUserLocation`
React component of davidcthornton/tourism-app) and proofs about its behaviour.

The component performs no arithmetic on the numbers it receives from the
Geolocation API: it only copies them between records and renders them with
JavaScript's default number-to-string conversion.  A JavaScript number is
therefore carried as its decimal string rendering (`JsNum`), which is faithful
for every operation the component applies to it.

React's `useState` setters are modelled explicitly: a state update dispatched
after the component instance has unmounted is discarded by the framework, so
each setter is the identity on an unmounted state.  `useRef` cells are plain
mutable fields, written regardless of mount status, exactly as in the source.

The external collaborators (the Geolocation API, `window`, the clipboard) are
modelled by `GeoEnv`: `activeWatches` is the set of watch subscriptions that
`navigator.geolocation.watchPosition` has registered and `clearWatch` has not
yet cancelled; availability flags mirror the capability checks in the source.
-/

/-- A JavaScript number as it occurs in this component, carried as its decimal
string rendering (the component only copies numbers and interpolates them into
template literals, never computes with them). -/
structure JsNum where
  repr : String
  deriving DecidableEq

/-- `type PositionState` of the source: the position record held in widget
state. -/
structure PositionState where
  latitude : JsNum
  longitude : JsNum
  accuracy : JsNum
  altitude : Option JsNum
  altitudeAccuracy : Option JsNum
  heading : Option JsNum
  speed : Option JsNum
  timestamp : JsNum
  deriving DecidableEq

/-- The DOM `PermissionState` values reported by the Permissions API. -/
inductive PermValue where
  | granted
  | denied
  | prompt
  deriving DecidableEq

/-- The `coords` member of a `GeolocationPosition` delivered to a success
callback. -/
structure GeolocationCoordinates where
  latitude : JsNum
  longitude : JsNum
  accuracy : JsNum
  altitude : Option JsNum
  altitudeAccuracy : Option JsNum
  heading : Option JsNum
  speed : Option JsNum
  deriving DecidableEq

/-- A `GeolocationPosition` delivered to a success callback. -/
structure GeolocationPosition where
  coords : GeolocationCoordinates
  timestamp : JsNum
  deriving DecidableEq

/-- A `GeolocationPositionError` delivered to an error callback.  `message`
is `err.message`, with `""` playing the role of a missing or empty (falsy)
message; `asString` is the rendering `String(err)`. -/
structure GeolocationPositionError where
  message : String
  asString : String
  deriving DecidableEq

/-- `PositionOptions` as configured by the component. -/
structure PositionOptions where
  enableHighAccuracy : Bool
  timeout : Nat
  maximumAge : Nat
  deriving DecidableEq

/-- `const geoOptions` of the source. -/
def geoOptions : PositionOptions :=
  { enableHighAccuracy := true, timeout := 10000, maximumAge := 0 }

/-- The widget's state: the five `useState` hooks, the `watchIdRef` ref cell,
and the mount status of this component instance. -/
structure WidgetState where
  position : Option PositionState
  error : Option String
  loading : Bool
  watching : Bool
  permissionState : Option PermValue
  watchIdRef : Option Nat
  mounted : Bool
  deriving DecidableEq

/-- `setPosition` from `useState`: React discards a dispatch on an unmounted
instance, so the setter is the identity once `mounted` is false. -/
def setPosition (s : WidgetState) (p : Option PositionState) : WidgetState :=
  if s.mounted then { s with position := p } else s

/-- `setError` from `useState` (discarded after unmount). -/
def setError (s : WidgetState) (e : Option String) : WidgetState :=
  if s.mounted then { s with error := e } else s

/-- `setLoading` from `useState` (discarded after unmount). -/
def setLoading (s : WidgetState) (b : Bool) : WidgetState :=
  if s.mounted then { s with loading := b } else s

/-- `setWatching` from `useState` (discarded after unmount). -/
def setWatching (s : WidgetState) (b : Bool) : WidgetState :=
  if s.mounted then { s with watching := b } else s

/-- `setPermissionState` from `useState` (discarded after unmount). -/
def setPermissionState (s : WidgetState) (p : Option PermValue) : WidgetState :=
  if s.mounted then { s with permissionState := p } else s

/-- The external environment: capability availability (constant for a browsing
session) and the geolocation service's registry of live watch subscriptions. -/
structure GeoEnv where
  geoAvailable : Bool
  windowDefined : Bool
  clipboardAvailable : Bool
  activeWatches : List Nat
  nextId : Nat
  deriving DecidableEq

/-- `navigator.geolocation.watchPosition`: registers a new subscription and
returns its fresh numeric handle. -/
def watchPosition (env : GeoEnv) : Nat × GeoEnv :=
  (env.nextId,
    { env with activeWatches := env.nextId :: env.activeWatches, nextId := env.nextId + 1 })

/-- `navigator.geolocation.clearWatch`: cancels the subscription with the given
handle. -/
def clearWatch (id : Nat) (env : GeoEnv) : GeoEnv :=
  { env with activeWatches := env.activeWatches.erase id }

/-- The message set when the Geolocation API is unavailable. -/
def notSupportedMsg : String := "Geolocation is not supported by your browser."

/-- `handleSuccess` of the source: copies every coordinate field and the
timestamp into a fresh `PositionState`, clears the error and the loading
flag. -/
def handleSuccess (s : WidgetState) (pos : GeolocationPosition) : WidgetState :=
  let coords := pos.coords
  let s1 := setPosition s (some
    { latitude := coords.latitude
      longitude := coords.longitude
      accuracy := coords.accuracy
      altitude := coords.altitude
      altitudeAccuracy := coords.altitudeAccuracy
      heading := coords.heading
      speed := coords.speed
      timestamp := pos.timestamp })
  let s2 := setError s1 none
  setLoading s2 false

/-- `err.message || String(err)` of the source: the message unless it is
falsy (empty), in which case the stringified error. -/
def errDisplay (err : GeolocationPositionError) : String :=
  if err.message = "" then err.asString else err.message

/-- `handleError` of the source: surfaces the failure text and clears the
loading flag (the `console.error` diagnostic trace carries no state). -/
def handleError (s : WidgetState) (err : GeolocationPositionError) : WidgetState :=
  let s1 := setError s (some (errDisplay err))
  setLoading s1 false

/-- `getOneShot` of the source.  The returned flag records whether
`getCurrentPosition` was invoked (a request was issued). -/
def getOneShot (env : GeoEnv) (s : WidgetState) : WidgetState × Bool :=
  if env.geoAvailable then
    (setLoading s true, true)
  else
    (setError s (some notSupportedMsg), false)

/-- `startWatching` of the source: on availability clear the error, set the
watching flag, register a watch and store its handle in `watchIdRef`;
otherwise set the unsupported message and return. -/
def startWatching (env : GeoEnv) (s : WidgetState) : WidgetState × GeoEnv :=
  if env.geoAvailable then
    let s1 := setError s none
    let s2 := setWatching s1 true
    let idEnv := watchPosition env
    ({ s2 with watchIdRef := some idEnv.1 }, idEnv.2)
  else
    (setError s (some notSupportedMsg), env)

/-- `stopWatching` of the source: if the API is available and a handle is
held, cancel that subscription and null the ref; in every case set the
watching flag to false. -/
def stopWatching (env : GeoEnv) (s : WidgetState) : WidgetState × GeoEnv :=
  let cleared :=
    if env.geoAvailable then
      match s.watchIdRef with
      | some id => ({ s with watchIdRef := none }, clearWatch id env)
      | none => (s, env)
    else
      (s, env)
  (setWatching cleared.1 false, cleared.2)

/-- The template literal in `copyToClipboard`. -/
def coordText (p : PositionState) : String :=
  p.latitude.repr ++ ", " ++ p.longitude.repr

/-- `copyToClipboard` of the source.  It mutates no widget state; the second
component is the text that reaches the clipboard, `none` when no write occurs
(no position held, no `window`, or `navigator.clipboard` absent so the
optional chain short-circuits).  When `writeText` rejects, the textarea
fallback copies the very same `text`, so the delivered text is independent of
which path succeeds. -/
def copyToClipboard (env : GeoEnv) (s : WidgetState) : WidgetState × Option String :=
  match s.position with
  | none => (s, none)
  | some p =>
    if env.windowDefined then
      if env.clipboardAvailable then (s, some (coordText p)) else (s, none)
    else
      (s, none)

/-- The template literal in `openInMaps`. -/
def mapsUrl (p : PositionState) : String :=
  "https://www.google.com/maps?q=" ++ p.latitude.repr ++ "," ++ p.longitude.repr

/-- `openInMaps` of the source: the URL passed to `window.open`, `none` when
no position is held or `window` is undefined (no browsing context opened). -/
def openInMaps (env : GeoEnv) (s : WidgetState) : Option String :=
  match s.position with
  | none => none
  | some p => if env.windowDefined then some (mapsUrl p) else none

/-- A configuration of the running widget: its state together with the
external environment. -/
structure Config where
  widget : WidgetState
  env : GeoEnv
  deriving DecidableEq

/-- The state produced by the `useState` initialisers on mount. -/
def initWidget : WidgetState :=
  { position := none, error := none, loading := false, watching := false,
    permissionState := none, watchIdRef := none, mounted := true }

/-- An initial environment with the given capability flags and no live watch
subscriptions. -/
def initEnv (geo win clip : Bool) : GeoEnv :=
  { geoAvailable := geo, windowDefined := win, clipboardAvailable := clip,
    activeWatches := [], nextId := 0 }

/-- Unmounting the component instance: its state is no longer live and every
subsequent `useState` dispatch is discarded. -/
def unmountWidget (s : WidgetState) : WidgetState :=
  { s with mounted := false }

/-- One event of the widget's event-driven execution.  Click events carry the
guards under which the rendered UI makes the control reachable: the one-shot
button is disabled while `loading`, the start-tracking button is rendered only
while not `watching`, the stop-tracking button only while `watching`, and the
copy and open buttons are disabled without a position.  Geolocation callbacks
may arrive at any time, including after unmount. -/
inductive Step : Config → Config → Prop where
  | clickGetPosition (c : Config)
      (hm : c.widget.mounted = true) (hl : c.widget.loading = false) :
      Step c ⟨(getOneShot c.env c.widget).1, c.env⟩
  | clickStartTracking (c : Config)
      (hm : c.widget.mounted = true) (hw : c.widget.watching = false) :
      Step c ⟨(startWatching c.env c.widget).1, (startWatching c.env c.widget).2⟩
  | clickStopTracking (c : Config)
      (hm : c.widget.mounted = true) (hw : c.widget.watching = true) :
      Step c ⟨(stopWatching c.env c.widget).1, (stopWatching c.env c.widget).2⟩
  | clickCopy (c : Config)
      (hm : c.widget.mounted = true) (hp : c.widget.position ≠ none) :
      Step c ⟨(copyToClipboard c.env c.widget).1, c.env⟩
  | clickOpen (c : Config)
      (hm : c.widget.mounted = true) (hp : c.widget.position ≠ none) :
      Step c c
  | geoSuccess (c : Config) (pos : GeolocationPosition) :
      Step c ⟨handleSuccess c.widget pos, c.env⟩
  | geoError (c : Config) (err : GeolocationPositionError) :
      Step c ⟨handleError c.widget err, c.env⟩
  | permissionChange (c : Config) (p : PermValue) (hm : c.widget.mounted = true) :
      Step c ⟨setPermissionState c.widget (some p), c.env⟩
  | unmount (c : Config) (hm : c.widget.mounted = true) :
      Step c ⟨unmountWidget c.widget, c.env⟩

/-- Configurations reachable from a fresh mount in an environment with any
capability flags. -/
inductive Reachable : Config → Prop where
  | init (geo win clip : Bool) : Reachable ⟨initWidget, initEnv geo win clip⟩
  | step (c c' : Config) (hr : Reachable c) (hs : Step c c') : Reachable c'

/-- The watch subscriptions a held handle accounts for. -/
def refWatches : Option Nat → List Nat
  | none => []
  | some id => [id]

/-- The live subscriptions are exactly those the stored handle accounts for:
no subscription is leaked. -/
def WatchInv (c : Config) : Prop :=
  c.env.activeWatches = refWatches c.widget.watchIdRef

/-- When the API is available, the handle is null whenever the widget is not
watching (so the start-tracking control is only reachable with no handle
held). -/
def IdleInv (c : Config) : Prop :=
  c.env.geoAvailable = true → c.widget.watching = false → c.widget.watchIdRef = none

/-- The inductive invariant of the widget's transition system. -/
def SysInv (c : Config) : Prop :=
  WatchInv c ∧ IdleInv c

/-- A sample reading used to exercise the operations on concrete input. -/
def samplePos : GeolocationPosition :=
  { coords :=
      { latitude := ⟨"37.7749"⟩
        longitude := ⟨"-122.4194"⟩
        accuracy := ⟨"5"⟩
        altitude := none
        altitudeAccuracy := none
        heading := none
        speed := none }
    timestamp := ⟨"1700000000000"⟩ }

/-- A sample failure carrying a human-readable message. -/
def sampleErr : GeolocationPositionError :=
  { message := "User denied Geolocation", asString := "GeolocationPositionError" }

/-- A sample failure whose message is empty (falsy). -/
def sampleErrNoMsg : GeolocationPositionError :=
  { message := "", asString := "[object GeolocationPositionError]" }

/-- The position record `handleSuccess` builds from `samplePos`. -/
def samplePosition : PositionState :=
  { latitude := ⟨"37.7749"⟩
    longitude := ⟨"-122.4194"⟩
    accuracy := ⟨"5"⟩
    altitude := none
    altitudeAccuracy := none
    heading := none
    speed := none
    timestamp := ⟨"1700000000000"⟩ }

/-- A torn-down instance that was busy when it unmounted. -/
def unmountedState : WidgetState :=
  { initWidget with
    mounted := false
    watching := true
    loading := true
    error := some "User denied Geolocation" }

/-- A mounted instance showing a prior failure. -/
def erroredState : WidgetState :=
  { initWidget with error := some "User denied Geolocation", loading := true }

/-- A mounted instance holding a position. -/
def positionedState : WidgetState :=
  { initWidget with position := some samplePosition }

/-- A widget that already holds watch handle 0 (as after a start). -/
def leakState : WidgetState :=
  { initWidget with watching := true, watchIdRef := some 0 }

/-- The matching environment: subscription 0 is live and the next handle is 1. -/
def leakEnv : GeoEnv :=
  { geoAvailable := true, windowDefined := true, clipboardAvailable := true,
    activeWatches := [0], nextId := 1 }

/-- The configuration reached from a fresh mount by one click on the
start-tracking control. -/
def startedConfig : Config :=
  ⟨(startWatching (initEnv true true true) initWidget).1,
    (startWatching (initEnv true true true) initWidget).2⟩

@[simp] theorem setPosition_watchIdRef (s : WidgetState) (p : Option PositionState) :
    (setPosition s p).watchIdRef = s.watchIdRef := by
  unfold setPosition; split <;> rfl

@[simp] theorem setPosition_watching (s : WidgetState) (p : Option PositionState) :
    (setPosition s p).watching = s.watching := by
  unfold setPosition; split <;> rfl

@[simp] theorem setPosition_mounted (s : WidgetState) (p : Option PositionState) :
    (setPosition s p).mounted = s.mounted := by
  unfold setPosition; split <;> rfl

@[simp] theorem setError_watchIdRef (s : WidgetState) (e : Option String) :
    (setError s e).watchIdRef = s.watchIdRef := by
  unfold setError; split <;> rfl

@[simp] theorem setError_watching (s : WidgetState) (e : Option String) :
    (setError s e).watching = s.watching := by
  unfold setError; split <;> rfl

@[simp] theorem setError_mounted (s : WidgetState) (e : Option String) :
    (setError s e).mounted = s.mounted := by
  unfold setError; split <;> rfl

@[simp] theorem setLoading_watchIdRef (s : WidgetState) (b : Bool) :
    (setLoading s b).watchIdRef = s.watchIdRef := by
  unfold setLoading; split <;> rfl

@[simp] theorem setLoading_watching (s : WidgetState) (b : Bool) :
    (setLoading s b).watching = s.watching := by
  unfold setLoading; split <;> rfl

@[simp] theorem setLoading_mounted (s : WidgetState) (b : Bool) :
    (setLoading s b).mounted = s.mounted := by
  unfold setLoading; split <;> rfl

@[simp] theorem setWatching_watchIdRef (s : WidgetState) (b : Bool) :
    (setWatching s b).watchIdRef = s.watchIdRef := by
  unfold setWatching; split <;> rfl

@[simp] theorem setWatching_mounted (s : WidgetState) (b : Bool) :
    (setWatching s b).mounted = s.mounted := by
  unfold setWatching; split <;> rfl

@[simp] theorem setWatching_position (s : WidgetState) (b : Bool) :
    (setWatching s b).position = s.position := by
  unfold setWatching; split <;> rfl

@[simp] theorem setWatching_error (s : WidgetState) (b : Bool) :
    (setWatching s b).error = s.error := by
  unfold setWatching; split <;> rfl

@[simp] theorem setWatching_loading (s : WidgetState) (b : Bool) :
    (setWatching s b).loading = s.loading := by
  unfold setWatching; split <;> rfl

@[simp] theorem setWatching_permissionState (s : WidgetState) (b : Bool) :
    (setWatching s b).permissionState = s.permissionState := by
  unfold setWatching; split <;> rfl

@[simp] theorem setPermissionState_watchIdRef (s : WidgetState) (p : Option PermValue) :
    (setPermissionState s p).watchIdRef = s.watchIdRef := by
  unfold setPermissionState; split <;> rfl

@[simp] theorem setPermissionState_watching (s : WidgetState) (p : Option PermValue) :
    (setPermissionState s p).watching = s.watching := by
  unfold setPermissionState; split <;> rfl

theorem setWatching_watching_of_mounted (s : WidgetState) (b : Bool)
    (hm : s.mounted = true) : (setWatching s b).watching = b := by
  unfold setWatching; rw [hm]; rfl

@[simp] theorem handleSuccess_watchIdRef (s : WidgetState) (pos : GeolocationPosition) :
    (handleSuccess s pos).watchIdRef = s.watchIdRef := by
  unfold handleSuccess; simp

@[simp] theorem handleSuccess_watching (s : WidgetState) (pos : GeolocationPosition) :
    (handleSuccess s pos).watching = s.watching := by
  unfold handleSuccess; simp

@[simp] theorem handleError_watchIdRef (s : WidgetState) (err : GeolocationPositionError) :
    (handleError s err).watchIdRef = s.watchIdRef := by
  unfold handleError; simp

@[simp] theorem handleError_watching (s : WidgetState) (err : GeolocationPositionError) :
    (handleError s err).watching = s.watching := by
  unfold handleError; simp

theorem copyToClipboard_fst (env : GeoEnv) (s : WidgetState) :
    (copyToClipboard env s).1 = s := by
  unfold copyToClipboard
  cases s.position
  · rfl
  · dsimp only
    split
    · split <;> rfl
    · rfl

@[simp] theorem getOneShot_fst_watchIdRef (env : GeoEnv) (s : WidgetState) :
    ((getOneShot env s).1).watchIdRef = s.watchIdRef := by
  unfold getOneShot; split <;> simp

@[simp] theorem getOneShot_fst_watching (env : GeoEnv) (s : WidgetState) :
    ((getOneShot env s).1).watching = s.watching := by
  unfold getOneShot; split <;> simp

theorem startWatching_available (env : GeoEnv) (s : WidgetState)
    (hg : env.geoAvailable = true) :
    startWatching env s =
      ({ setWatching (setError s none) true with watchIdRef := some env.nextId },
        { env with activeWatches := env.nextId :: env.activeWatches, nextId := env.nextId + 1 }) := by
  simp [startWatching, watchPosition, hg]

theorem startWatching_unavailable (env : GeoEnv) (s : WidgetState)
    (hg : env.geoAvailable = false) :
    startWatching env s = (setError s (some notSupportedMsg), env) := by
  simp [startWatching, hg]

theorem stopWatching_unavailable (env : GeoEnv) (s : WidgetState)
    (hg : env.geoAvailable = false) :
    stopWatching env s = (setWatching s false, env) := by
  simp [stopWatching, hg]

theorem stopWatching_noHandle (env : GeoEnv) (s : WidgetState)
    (hr : s.watchIdRef = none) :
    stopWatching env s = (setWatching s false, env) := by
  unfold stopWatching
  rw [hr]
  split <;> rfl

theorem stopWatching_handle (env : GeoEnv) (s : WidgetState) (id : Nat)
    (hg : env.geoAvailable = true) (hr : s.watchIdRef = some id) :
    stopWatching env s =
      (setWatching { s with watchIdRef := none } false, clearWatch id env) := by
  simp [stopWatching, hg, hr]

theorem inv_init (geo win clip : Bool) : SysInv ⟨initWidget, initEnv geo win clip⟩ := by
  constructor
  · rfl
  · intro _ _; rfl

theorem inv_step {c c' : Config} (hc : SysInv c) (hs : Step c c') : SysInv c' := by
  obtain ⟨hwi, hid⟩ := hc
  unfold WatchInv at hwi
  unfold IdleInv at hid
  unfold SysInv WatchInv IdleInv
  cases hs with
  | clickGetPosition hm hl =>
    refine ⟨?_, ?_⟩ <;> dsimp only
    · rw [getOneShot_fst_watchIdRef]; exact hwi
    · intro hg hwatch
      rw [getOneShot_fst_watchIdRef]
      rw [getOneShot_fst_watching] at hwatch
      exact hid hg hwatch
  | clickStartTracking hm hw =>
    cases hg : c.env.geoAvailable with
    | true =>
      have href : c.widget.watchIdRef = none := hid hg hw
      rw [startWatching_available c.env c.widget hg]
      refine ⟨?_, ?_⟩ <;> dsimp only
      · rw [hwi, href]; rfl
      · intro _ hwatch
        rw [setWatching_watching_of_mounted _ _ (by rw [setError_mounted]; exact hm)] at hwatch
        exact absurd hwatch (by simp)
    | false =>
      rw [startWatching_unavailable c.env c.widget hg]
      refine ⟨?_, ?_⟩ <;> dsimp only
      · rw [setError_watchIdRef]; exact hwi
      · intro hgt _
        exact absurd hgt (by simp [hg])
  | clickStopTracking hm hw =>
    cases hg : c.env.geoAvailable with
    | true =>
      cases href : c.widget.watchIdRef with
      | none =>
        rw [stopWatching_noHandle c.env c.widget href]
        refine ⟨?_, ?_⟩ <;> dsimp only
        · rw [setWatching_watchIdRef, href, hwi, href]
        · intro _ _
          rw [setWatching_watchIdRef]; exact href
      | some id =>
        rw [stopWatching_handle c.env c.widget id hg href]
        refine ⟨?_, ?_⟩ <;> dsimp only
        · rw [setWatching_watchIdRef]
          simp [clearWatch, hwi, href, refWatches]
        · intro _ _
          rw [setWatching_watchIdRef]
    | false =>
      rw [stopWatching_unavailable c.env c.widget hg]
      refine ⟨?_, ?_⟩ <;> dsimp only
      · rw [setWatching_watchIdRef]; exact hwi
      · intro hgt _
        exact absurd hgt (by simp [hg])
  | clickCopy hm hp =>
    rw [copyToClipboard_fst]
    exact ⟨hwi, hid⟩
  | clickOpen hm hp =>
    exact ⟨hwi, hid⟩
  | geoSuccess pos =>
    refine ⟨?_, ?_⟩ <;> dsimp only
    · rw [handleSuccess_watchIdRef]; exact hwi
    · intro hg hwatch
      rw [handleSuccess_watchIdRef]
      rw [handleSuccess_watching] at hwatch
      exact hid hg hwatch
  | geoError err =>
    refine ⟨?_, ?_⟩ <;> dsimp only
    · rw [handleError_watchIdRef]; exact hwi
    · intro hg hwatch
      rw [handleError_watchIdRef]
      rw [handleError_watching] at hwatch
      exact hid hg hwatch
  | permissionChange p hm =>
    refine ⟨?_, ?_⟩ <;> dsimp only
    · rw [setPermissionState_watchIdRef]; exact hwi
    · intro hg hwatch
      rw [setPermissionState_watchIdRef]
      rw [setPermissionState_watching] at hwatch
      exact hid hg hwatch
  | unmount hm =>
    refine ⟨?_, ?_⟩ <;> dsimp only [unmountWidget]
    · exact hwi
    · intro hg hwatch
      exact hid hg hwatch

theorem reachable_inv {c : Config} (h : Reachable c) : SysInv c := by
  induction h with
  | init geo win clip => exact inv_init geo win clip
  | step c c2 hr hs ih => exact inv_step ih hs

/-- Claim C1, counterexample: `startWatching`, invoked while handle 0 is held
and the API is available, registers subscription 1 and overwrites the handle
without cancelling subscription 0 — the prior subscription stays active and
is no longer referenced, i.e. it is leaked, and the call was neither
disallowed nor preceded by a cancellation. -/
theorem startTracking_leak_counterexample :
    (startWatching leakEnv leakState).2.activeWatches = [1, 0] ∧
    (startWatching leakEnv leakState).1.watchIdRef = some 1 ∧
    0 ∈ (startWatching leakEnv leakState).2.activeWatches ∧
    (startWatching leakEnv leakState).1.watchIdRef ≠ some 0 := by
  decide

/-- Claim C1 (amended): in every configuration reachable through the widget's
UI-driven transition system, at most one watch subscription is active, and
every active subscription is the one referenced by the stored handle, so no
subscription is ever leaked; this holds because the start-tracking control is
only reachable while `watching` is false, in which state no handle is held
when the API is available — not because `startWatching` cancels a prior
session. -/
theorem atMostOneActiveSession {c : Config} (h : Reachable c) :
    c.env.activeWatches.length ≤ 1 ∧
    ∀ id ∈ c.env.activeWatches, c.widget.watchIdRef = some id := by
  have hwi : c.env.activeWatches = refWatches c.widget.watchIdRef :=
    (reachable_inv h).1
  cases href : c.widget.watchIdRef with
  | none =>
    rw [href] at hwi
    constructor
    · simp [hwi, refWatches]
    · intro id hmem
      rw [hwi] at hmem
      simp [refWatches] at hmem
  | some id0 =>
    rw [href] at hwi
    constructor
    · simp [hwi, refWatches]
    · intro id hmem
      rw [hwi] at hmem
      simp [refWatches] at hmem
      rw [hmem]

/-- Claim C1 witness: the amended invariant evaluated in the configuration
reached by one start-tracking click from a fresh mount, where subscription 0
is active and referenced. -/
theorem atMostOneActiveSession_witness :
    startedConfig.env.activeWatches.length ≤ 1 ∧
    startedConfig.widget.watchIdRef = some 0 := by
  have hr : Reachable startedConfig :=
    Reachable.step _ _ (Reachable.init true true true)
      (Step.clickStartTracking ⟨initWidget, initEnv true true true⟩ rfl rfl)
  have h := atMostOneActiveSession hr
  exact ⟨h.1, h.2 0 (by decide)⟩

/-- Claim C2: once the instance is unmounted, a late success or error callback
leaves the widget state untouched (every `useState` dispatch is discarded by
the framework, so position, error, loading and watching are never written
after teardown). -/
theorem callbacks_after_teardown_noop (s : WidgetState) (pos : GeolocationPosition)
    (err : GeolocationPositionError) (h : s.mounted = false) :
    handleSuccess s pos = s ∧ handleError s err = s := by
  unfold handleSuccess handleError setPosition setError setLoading
  simp [h]

/-- Claim C2 witness: concrete late callbacks against a torn-down instance. -/
theorem callbacks_after_teardown_noop_witness :
    handleSuccess unmountedState samplePos = unmountedState ∧
    handleError unmountedState sampleErr = unmountedState :=
  callbacks_after_teardown_noop unmountedState samplePos sampleErr rfl

/-- Claim C3: a successful callback stores exactly the callback's coordinate
fields and timestamp, unchanged, as the held (and displayed) position. -/
theorem displayed_position_exact (s : WidgetState) (pos : GeolocationPosition)
    (h : s.mounted = true) :
    (handleSuccess s pos).position = some
      { latitude := pos.coords.latitude
        longitude := pos.coords.longitude
        accuracy := pos.coords.accuracy
        altitude := pos.coords.altitude
        altitudeAccuracy := pos.coords.altitudeAccuracy
        heading := pos.coords.heading
        speed := pos.coords.speed
        timestamp := pos.timestamp } := by
  unfold handleSuccess setPosition setError setLoading
  simp [h]

/-- Claim C3 witness: the sample reading is stored verbatim. -/
theorem displayed_position_exact_witness :
    (handleSuccess initWidget samplePos).position = some samplePosition :=
  displayed_position_exact initWidget samplePos rfl

/-- Claim C4: with the Geolocation API unavailable, `startWatching` sets the
error to exactly the unsupported message, leaves `watching` false, leaves the
handle untouched and creates no watch subscription (the environment is
unchanged). -/
theorem startTracking_unavailable_error (s : WidgetState) (env : GeoEnv)
    (hg : env.geoAvailable = false) (hm : s.mounted = true) (hw : s.watching = false) :
    (startWatching env s).1.error = some "Geolocation is not supported by your browser." ∧
    (startWatching env s).1.watching = false ∧
    (startWatching env s).1.watchIdRef = s.watchIdRef ∧
    (startWatching env s).2 = env := by
  rw [startWatching_unavailable env s hg]
  refine ⟨?_, ?_, ?_, rfl⟩ <;> dsimp only
  · simp [setError, hm, notSupportedMsg]
  · rw [setError_watching]; exact hw
  · rw [setError_watchIdRef]

/-- Claim C4 witness: a fresh mount in an environment without the API. -/
theorem startTracking_unavailable_error_witness :
    (startWatching (initEnv false true true) initWidget).1.error =
      some "Geolocation is not supported by your browser." ∧
    (startWatching (initEnv false true true) initWidget).1.watching = false ∧
    (startWatching (initEnv false true true) initWidget).2 = initEnv false true true := by
  have h := startTracking_unavailable_error initWidget (initEnv false true true) rfl rfl rfl
  exact ⟨h.1, h.2.1, h.2.2.2⟩

/-- Claim C5: any successful callback on a live instance populates the
position, clears the error to absent and clears the loading flag — in
particular a success after a prior failure clears the failure message. -/
theorem success_populates_and_clears (s : WidgetState) (pos : GeolocationPosition)
    (h : s.mounted = true) :
    (handleSuccess s pos).position ≠ none ∧
    (handleSuccess s pos).error = none ∧
    (handleSuccess s pos).loading = false := by
  unfold handleSuccess setPosition setError setLoading
  simp [h]

/-- Claim C5 witness: a success delivered to an instance showing a prior
failure with an outstanding one-shot request. -/
theorem success_populates_and_clears_witness :
    (handleSuccess erroredState samplePos).position ≠ none ∧
    (handleSuccess erroredState samplePos).error = none ∧
    (handleSuccess erroredState samplePos).loading = false :=
  success_populates_and_clears erroredState samplePos rfl

/-- Claim C6: a failing callback on a live instance sets the error to the
failure's message when it is non-empty and to its string form otherwise,
clears the loading flag, and leaves the held position unchanged. -/
theorem failure_sets_message (s : WidgetState) (err : GeolocationPositionError)
    (h : s.mounted = true) :
    (err.message ≠ "" → (handleError s err).error = some err.message) ∧
    (err.message = "" → (handleError s err).error = some err.asString) ∧
    (handleError s err).loading = false ∧
    (handleError s err).position = s.position := by
  unfold handleError errDisplay setError setLoading
  refine ⟨fun hmsg => ?_, fun hmsg => ?_, ?_, ?_⟩ <;> simp [h, *]

/-- Claim C6 witness: a failure with a message keeps the message verbatim;
a failure with an empty message falls back to its string form. -/
theorem failure_sets_message_witness :
    (handleError initWidget sampleErr).error = some "User denied Geolocation" ∧
    (handleError initWidget sampleErrNoMsg).error =
      some "[object GeolocationPositionError]" :=
  ⟨(failure_sets_message initWidget sampleErr rfl).1 (by decide),
    (failure_sets_message initWidget sampleErrNoMsg rfl).2.1 rfl⟩

/-- Claim C7: with no session handle held, `stopWatching` leaves (or makes)
`watching` false, leaves the error field untouched, and running it a second
time yields exactly the state and environment of the first run. -/
theorem stopTracking_idempotent_when_inactive (s : WidgetState) (env : GeoEnv)
    (hm : s.mounted = true) (hr : s.watchIdRef = none) :
    (stopWatching env s).1.watching = false ∧
    (stopWatching env s).1.error = s.error ∧
    stopWatching (stopWatching env s).2 (stopWatching env s).1 = stopWatching env s := by
  rw [stopWatching_noHandle env s hr]
  refine ⟨?_, ?_, ?_⟩ <;> dsimp only
  · exact setWatching_watching_of_mounted s false hm
  · rw [setWatching_error]
  · rw [stopWatching_noHandle env (setWatching s false)
      (by rw [setWatching_watchIdRef]; exact hr)]
    simp [setWatching, hm]

/-- Claim C7 witness: two stops in a row from a fresh mount. -/
theorem stopTracking_idempotent_when_inactive_witness :
    (stopWatching (initEnv true true true) initWidget).1.watching = false ∧
    stopWatching (stopWatching (initEnv true true true) initWidget).2
        (stopWatching (initEnv true true true) initWidget).1 =
      stopWatching (initEnv true true true) initWidget := by
  have h := stopTracking_idempotent_when_inactive initWidget (initEnv true true true) rfl rfl
  exact ⟨h.1, h.2.2⟩

/-- Claim C8: `copyToClipboard` never mutates widget state; with no position
held no text reaches the clipboard; with a position held (and `window` and
the clipboard present) the delivered text is exactly
latitude, comma, space, longitude. -/
theorem copyCoordinates_spec (s : WidgetState) (env : GeoEnv) :
    (copyToClipboard env s).1 = s ∧
    (s.position = none → (copyToClipboard env s).2 = none) ∧
    (∀ p, s.position = some p → env.windowDefined = true →
      env.clipboardAvailable = true →
      (copyToClipboard env s).2 = some (p.latitude.repr ++ ", " ++ p.longitude.repr)) := by
  refine ⟨copyToClipboard_fst env s, fun hp => ?_, fun p hp hw hc => ?_⟩
  · unfold copyToClipboard; rw [hp]
  · unfold copyToClipboard; rw [hp]
    simp [hw, hc, coordText]

/-- Claim C8 witness: no write from a fresh mount without a position, and the
exact serialization of the sample position. -/
theorem copyCoordinates_spec_witness :
    (copyToClipboard (initEnv true true true) initWidget).2 = none ∧
    (copyToClipboard (initEnv true true true) positionedState).2 =
      some "37.7749, -122.4194" := by
  refine ⟨(copyCoordinates_spec initWidget (initEnv true true true)).2.1 rfl, ?_⟩
  have h := (copyCoordinates_spec positionedState (initEnv true true true)).2.2
    samplePosition rfl rfl rfl
  rw [h]; rfl

/-- Claim C9: `openInMaps` is a no-op without a held position, and with one it
opens exactly the verbatim Google Maps URL built from latitude and
longitude. -/
theorem openInMaps_url (s : WidgetState) (env : GeoEnv) :
    (s.position = none → openInMaps env s = none) ∧
    (∀ p, s.position = some p → env.windowDefined = true →
      openInMaps env s =
        some ("https://www.google.com/maps?q=" ++ p.latitude.repr ++ "," ++ p.longitude.repr)) := by
  refine ⟨fun hp => ?_, fun p hp hw => ?_⟩
  · unfold openInMaps; rw [hp]
  · unfold openInMaps mapsUrl; rw [hp]
    simp [hw]

/-- Claim C9 witness: the position of the spec's example produces exactly the
URL the spec names, and no URL is opened without a position. -/
theorem openInMaps_url_witness :
    openInMaps (initEnv true true true) positionedState =
      some "https://www.google.com/maps?q=37.7749,-122.4194" ∧
    openInMaps (initEnv true true true) initWidget = none := by
  refine ⟨?_, (openInMaps_url initWidget (initEnv true true true)).1 rfl⟩
  have h := (openInMaps_url positionedState (initEnv true true true)).2
    samplePosition rfl rfl
  rw [h]; rfl

/-- Claim C10: `stopWatching` leaves the position, error, loading and
permission-state fields unchanged in every state and environment — it only
touches the watching flag, the stored handle and the subscription registry. -/
theorem stopTracking_frame (s : WidgetState) (env : GeoEnv) :
    (stopWatching env s).1.position = s.position ∧
    (stopWatching env s).1.error = s.error ∧
    (stopWatching env s).1.loading = s.loading ∧
    (stopWatching env s).1.permissionState = s.permissionState := by
  cases href : s.watchIdRef with
  | none =>
    rw [stopWatching_noHandle env s href]
    simp
  | some id =>
    cases hg : env.geoAvailable with
    | true =>
      rw [stopWatching_handle env s id hg href]
      simp
    | false =>
      rw [stopWatching_unavailable env s hg]
      simp
